import Mathlib

/-!
Verification of the persistent browser service (single-file Express/Playwright
server) against its natural-language specification.

The development shallowly embeds the service's pure logic:
* the access-blocker classifier (`detectAccessBlocker` and the function it
  evaluates in the page, here `classifySnapshot`),
* the per-endpoint job pipelines (`fetchPipeline`, `searchPipeline`,
  `mapsPipeline`) over a `Page` snapshot of the DOM-facing capabilities,
* the maps scroll-collector (`scrape`, `mapsLoopAux`, `mapsCollector`),
* the field-extraction evaluate of the fetch endpoint (`extractFields`),
* the serialized execution queue as a small-step machine (`QStep`),
* the session lifecycle (`launchBrowserM`, `getSharedPageM`, `resetService`),
* the shared page's extra-HTTP-header state across jobs (`headersAfter`).

DOM queries (querySelector existence, innerText, iframe src enumeration) are
modelled as snapshot fields of the page, mirroring the spec's "snapshot
capability" boundary; everything computed from those snapshots follows the
source line by line.
-/

/-- Character-wise lowercasing of a string, the model of JavaScript
`String.prototype.toLowerCase` for the ASCII texts the classifier handles. -/
def lowerStr (s : String) : String := ⟨s.data.map Char.toLower⟩

/-- `isPrefixOfCL pat l` decides whether the character list `pat` is an initial
segment of `l`. -/
def isPrefixOfCL : List Char → List Char → Bool
  | [], _ => true
  | _ :: _, [] => false
  | a :: as, b :: bs => a == b && isPrefixOfCL as bs

/-- `subListCL pat l` decides whether `pat` occurs contiguously inside `l`;
model of JavaScript `String.prototype.includes` at the character-list level. -/
def subListCL (pat : List Char) : List Char → Bool
  | [] => pat.isEmpty
  | b :: bs => isPrefixOfCL pat (b :: bs) || subListCL pat bs

/-- `strIncl s pat` is the model of the source's `s.includes(pat)`. -/
def strIncl (s pat : String) : Bool := subListCL pat.data s.data

/-- First-match association-list lookup, the model of `Map.prototype.get` /
`Map.prototype.has` on the scroll collector's dedup map and of
`getAttribute` on an element's attribute set. -/
def alookup (key : String) : List (String × α) → Option α
  | [] => none
  | (k, v) :: rest => if key = k then some v else alookup key rest

theorem isPrefixOfCL_iff (pat l : List Char) :
    isPrefixOfCL pat l = true ↔ ∃ r, l = pat ++ r := by
  induction pat generalizing l with
  | nil => simp [isPrefixOfCL]
  | cons a as ih =>
    cases l with
    | nil => simp [isPrefixOfCL]
    | cons b bs =>
      simp only [isPrefixOfCL, Bool.and_eq_true, beq_iff_eq, ih, List.cons_append,
        List.cons.injEq]
      constructor
      · rintro ⟨rfl, r, rfl⟩; exact ⟨r, rfl, rfl⟩
      · rintro ⟨r, rfl, rfl⟩; exact ⟨rfl, r, rfl⟩

theorem subListCL_iff (pat l : List Char) :
    subListCL pat l = true ↔ ∃ a r, l = a ++ pat ++ r := by
  induction l with
  | nil =>
    simp only [subListCL, List.isEmpty_iff]
    constructor
    · rintro rfl; exact ⟨[], [], rfl⟩
    · rintro ⟨a, r, h⟩
      rcases List.append_eq_nil.mp (List.append_eq_nil.mp h.symm).1 with ⟨_, h2⟩
      exact h2
  | cons b bs ih =>
    simp only [subListCL, Bool.or_eq_true, isPrefixOfCL_iff, ih]
    constructor
    · rintro (⟨r, hr⟩ | ⟨a, r, hr⟩)
      · exact ⟨[], r, by simpa using hr⟩
      · exact ⟨b :: a, r, by simp [hr]⟩
    · rintro ⟨a, r, hr⟩
      cases a with
      | nil => exact Or.inl ⟨r, by simpa using hr⟩
      | cons x xs =>
        rcases List.cons.injEq .. ▸ hr with ⟨_, h2⟩
        exact Or.inr ⟨xs, r, by simpa using h2⟩

/-- If a pattern that is fixed by lowercasing occurs in `s`, it also occurs in
the lowercased `s`; this is how a literal lowercase phrase in the catalog
survives the classifier's `toLower` of the body text. -/
theorem strIncl_lowerStr (s pat : String) (hfix : pat.data.map Char.toLower = pat.data)
    (h : strIncl s pat = true) : strIncl (lowerStr s) pat = true := by
  unfold strIncl at *
  rcases (subListCL_iff _ _).mp h with ⟨a, r, hr⟩
  refine (subListCL_iff _ _).mpr ⟨a.map Char.toLower, r.map Char.toLower, ?_⟩
  show (String.data s).map Char.toLower = _
  rw [hr]
  simp [hfix]

/-! ## Access-blocker classifier (source lines 169–314) -/

/-- Snapshot of the DOM-facing observations that the classifier's in-page
evaluate makes: body inner text, document HTML, which CSS selectors match
(`document.querySelector(sel)` truthy), which selector queries throw, and the
`src` attributes (or `''`) of all iframes. -/
structure Snapshot where
  bodyText : String
  htmlText : String
  selMatch : String → Bool
  selErr : String → Bool
  iframeSrcs : List String

/-- Matched-evidence record of a verdict (`evidence` in the source). The cookie
verdict carries no iframe list; it is the empty list here. -/
structure Evidence where
  selectors : List String
  phrases : List String
  iframes : List String
deriving DecidableEq, Repr

/-- Classifier verdict (`type`/`reason`/`evidence`/`missingRequired` object
returned from the page evaluate). -/
structure Verdict where
  type : String
  reason : String
  evidence : Evidence
  missingRequired : Bool
deriving DecidableEq, Repr

/-- Cookie/consent selector catalog (source lines 189–203). -/
def cookieSelectors : List String :=
  ["#onetrust-banner-sdk", "#onetrust-consent-sdk", ".osano-cm-window",
   ".truste_overlay", ".qc-cmp2-container", ".cookie-consent", ".cookie-banner",
   ".consent-banner", "#cookie-banner", "#sp-cc", "[id*=\"cookieconsent\"]",
   "[class*=\"cookie-consent\"]", "[class*=\"gdpr-consent\"]"]

/-- Cookie/consent phrase catalog (source lines 205–213). -/
def cookiePhrases : List String :=
  ["we use cookies", "cookie policy", "accept all cookies", "manage cookies",
   "consent to cookies", "your cookie preferences", "cookie settings"]

/-- CAPTCHA/challenge selector catalog (source lines 215–229). -/
def captchaSelectors : List String :=
  ["#captcha", "#captcha-form", "#recaptcha", ".g-recaptcha", ".h-captcha",
   ".cf-challenge-card", "#challenge-form", "#cf-challenge-running",
   "[data-sitekey]", "iframe[src*=\"recaptcha\"]", "iframe[src*=\"hcaptcha\"]",
   "iframe[src*=\"turnstile\"]", "iframe[src*=\"challenges.cloudflare.com\"]"]

/-- CAPTCHA/challenge phrase catalog (source lines 231–239). -/
def captchaPhrases : List String :=
  ["please verify you are human", "are you a robot", "confirm you are human",
   "complete the captcha", "security challenge", "press and hold",
   "checking if the site connection is secure"]

/-- Literal alternatives of the case-insensitive iframe-src challenge regex
`/recaptcha|hcaptcha|turnstile|challenges\.cloudflare\.com|cf\.tw|\/captcha/i`. -/
def captchaIframePatterns : List String :=
  ["recaptcha", "hcaptcha", "turnstile", "challenges.cloudflare.com", "cf.tw",
   "/captcha"]

/-- `collectSelectors` of the source: keep the selectors whose query succeeds
and matches; a selector whose query throws is dropped. -/
def selectorHitList (s : Snapshot) (sels : List String) : List String :=
  sels.filter fun sel => !s.selErr sel && s.selMatch sel

/-- `collectPhrases` of the source: keep the catalog phrases occurring in the
lowercased body text. -/
def phraseHitList (s : Snapshot) (phs : List String) : List String :=
  phs.filter fun p => strIncl (lowerStr s.bodyText) p

/-- `missingRequired` of the source: the required-selector list is non-empty
and every required selector is absent (a throwing query counts as absent). -/
def missingRequiredB (rs : List String) (s : Snapshot) : Bool :=
  !rs.isEmpty && rs.all fun sel => s.selErr sel || !s.selMatch sel

/-- Iframe sources matching the challenge-provider patterns (case-insensitive
regex test modelled as lowercase substring search). -/
def captchaIframeHits (s : Snapshot) : List String :=
  s.iframeSrcs.filter fun src =>
    captchaIframePatterns.any fun pat => strIncl (lowerStr src) pat

/-- Cloudflare challenge-markup markers in the document HTML. -/
def cloudflareMarkers (s : Snapshot) : Bool :=
  strIncl (lowerStr s.htmlText) "cf-browser-verification" ||
  strIncl (lowerStr s.htmlText) "cf-chl-widget" ||
  strIncl (lowerStr s.htmlText) "cf_clearance"

/-- The function the classifier evaluates inside the page (source lines
172–309): cookie evidence first, then CAPTCHA evidence, then missing required
content, else no verdict. -/
def classifySnapshot (rs : List String) (s : Snapshot) : Option Verdict :=
  let cookieHits := selectorHitList s cookieSelectors
  let cookieTextHits := phraseHitList s cookiePhrases
  let missingRequired := missingRequiredB rs s
  if !cookieHits.isEmpty || !cookieTextHits.isEmpty then
    some { type := "cookie",
           reason := "Detected cookie or consent banner covering the page",
           evidence := ⟨cookieHits, cookieTextHits, []⟩,
           missingRequired := missingRequired }
  else
    let captchaHits := selectorHitList s captchaSelectors
    let captchaTextHits := phraseHitList s captchaPhrases
    let iframeHits := captchaIframeHits s
    if !captchaHits.isEmpty || !captchaTextHits.isEmpty || !iframeHits.isEmpty ||
        cloudflareMarkers s then
      some { type := "captcha",
             reason := "Detected CAPTCHA or human-verification challenge",
             evidence := ⟨captchaHits, captchaTextHits, iframeHits⟩,
             missingRequired := missingRequired }
    else if missingRequired then
      some { type := "unknown",
             reason := "Required page content was not found after navigation",
             evidence := ⟨rs, [], []⟩,
             missingRequired := true }
    else
      none

/-- `detectAccessBlocker` (source lines 169–314): the snapshot argument is
`none` when the page evaluate itself throws, in which case the catch block
returns `null`; otherwise the in-page classification runs. -/
def detectAccessBlocker (rs : List String) : Option Snapshot → Option Verdict
  | none => none
  | some s => classifySnapshot rs s

/-! ## Extraction and job pipelines -/

/-- A DOM element as the extraction evaluate observes it: rendered text and
attribute set (`getAttribute` returns `null` for an absent attribute). -/
structure Elem where
  innerText : String
  attrs : List (String × String)

/-- One `{name, selector, attr}` triple of a fetch request's `extract` list;
`attr` defaults to `'innerText'` in the source. -/
structure ExtractItem where
  name : String
  selector : String
  attr : String := "innerText"
deriving DecidableEq, Repr

/-- Value of one extraction field once its `document.querySelector(selector)`
call has returned without throwing: `null` when the selector matches nothing,
otherwise the rendered text or the named attribute (source lines 848–853). -/
def extractValue (q : String → Option Elem) (it : ExtractItem) : Option String :=
  match q it.selector with
  | none => none
  | some node =>
    if it.attr = "innerText" then some node.innerText
    else alookup it.attr node.attrs

/-- Resolution of a single extraction field (body of the `forEach` in the
fetch endpoint's extract evaluate, source lines 845–856). Unlike the
classifier's per-selector try/catch, this `forEach` body has no error
handling: `document.querySelector` throwing on an invalid selector (`qe`
true) aborts the evaluate, so the field resolves to an error, not a value. -/
def extractField (qe : String → Bool) (q : String → Option Elem)
    (it : ExtractItem) : Except String (Option String) :=
  if qe it.selector then Except.error "invalid selector in extract evaluate"
  else Except.ok (extractValue q it)

/-- The whole extract evaluate: builds the `data` object field by field in
spec order; the first throwing selector rejects the whole evaluate, and every
field's resolution is lost with it. -/
def extractFields (qe : String → Bool) (q : String → Option Elem) :
    List ExtractItem → Except String (List (String × Option String))
  | [] => Except.ok []
  | it :: rest =>
    match extractField qe q it with
    | Except.error e => Except.error e
    | Except.ok v =>
      Except.map (fun tail => (it.name, v) :: tail) (extractFields qe q rest)

/-- A search result card as the search extraction evaluate observes it after
its DOM queries: headline text, resolved link, video-card classification, and
the snippet / site-path texts its scoped snippet search resolves. -/
structure SCard where
  title : Option String
  link : Option String
  isVideo : Bool
  snippet : Option String
  sitePath : Option String
deriving DecidableEq, Repr

/-- One entry of the search endpoint's `results` array. -/
structure SItem where
  title : String
  link : String
  snippet : Option String
  sitePath : Option String
deriving DecidableEq, Repr

/-- The card loop of the search extraction evaluate (source lines 495–566):
skip cards without headline or link, dedup by resolved link, skip video cards,
stop once `maxResults` items are accumulated. -/
def searchExtractGo (maxResults : Nat) :
    List SCard → List String → List SItem → List SItem
  | [], _, acc => acc
  | c :: rest, seen, acc =>
    match c.title, c.link with
    | some t, some l =>
      if seen.contains l then searchExtractGo maxResults rest seen acc
      else if c.isVideo then searchExtractGo maxResults rest seen acc
      else
        let acc' := acc ++ [⟨t.trim, l, c.snippet, c.sitePath⟩]
        if maxResults ≤ acc'.length then acc'
        else searchExtractGo maxResults rest (seen ++ [l]) acc'
    | _, _ => searchExtractGo maxResults rest seen acc

/-- A maps place card (`a.hfpxzc[href*="/place/"]` anchor) as the collector's
`scrape` observes it: aria-label title, href, and the rating / review-count /
descriptor texts of its child nodes. -/
structure MCard where
  title : Option String
  href : Option String
  rating : Option String
  reviews : Option String
  descriptor : Option String
deriving DecidableEq, Repr

/-- One entry of the maps endpoint's `results` array. -/
structure MEntry where
  title : String
  href : String
  rating : Option String
  reviews : Option String
  descriptor : Option String
deriving DecidableEq, Repr

/-- `scrape` of the maps collector (source lines 728–746): fold the currently
rendered cards into the dedup map keyed by href, skipping cards without title
or href and hrefs already collected; insertion order is preserved, matching
`Map` iteration order. -/
def scrape (cards : List MCard) (m : List (String × MEntry)) :
    List (String × MEntry) :=
  match cards with
  | [] => m
  | c :: rest =>
    match c.href, c.title with
    | some h, some t =>
      if (alookup h m).isSome then scrape rest m
      else scrape rest (m ++ [(h, ⟨t, h, c.rating, c.reviews, c.descriptor⟩)])
    | _, _ => scrape rest m

/-- The collector's while loop (source lines 749–755). `snap k` is the list of
cards rendered after `k` scroll passes; the fuel starts at `20` and together
with the pass counter mirrors `iterations < 20`. Each pass scrapes, scrolls the
panel, and increments the counter; the loop runs only while fewer than
`maxResults` entries are collected, scrolling is enabled and a panel exists. -/
def mapsLoopAux (snap : Nat → List MCard) (maxResults : Nat)
    (scrollOn panelOn : Bool) :
    Nat → Nat → List (String × MEntry) → Nat × List (String × MEntry)
  | 0, k, m => (k, m)
  | fuel + 1, k, m =>
    if m.length < maxResults && scrollOn && panelOn then
      mapsLoopAux snap maxResults scrollOn panelOn fuel (k + 1)
        (scrape (snap k) m)
    else (k, m)

/-- The whole maps collector evaluate (source lines 723–761): run the scroll
loop, perform the final `scrape()` on the last-rendered panel state, and
return the collected values truncated to `maxResults`. -/
def mapsCollector (snap : Nat → List MCard) (maxResults : Nat)
    (scrollOn panelOn : Bool) : List MEntry :=
  let st := mapsLoopAux snap maxResults scrollOn panelOn 20 0 []
  let final := scrape (snap st.1) st.2
  (final.map Prod.snd).take maxResults

/-- Per-job view of the shared page: whether navigation succeeds, which
awaited selectors appear before their wait times out, the classifier snapshot
(`none` when the classification evaluate throws), the extraction query
(`queryErr` tells which selectors make `document.querySelector` throw), the
rendered search cards, the maps panel and its per-scroll card snapshots, and
the serialized document. -/
structure Page where
  navOk : Bool
  selectorFound : String → Bool
  snapshot : Option Snapshot
  queryErr : String → Bool
  query : String → Option Elem
  resultCards : List SCard
  mapsSnap : Nat → List MCard
  mapsPanel : Bool
  content : String

/-- Body of a `/fetch` request (the fields the embedded pipeline consumes). -/
structure FetchReq where
  url : String
  waitForSelector : Option String
  extract : Option (List ExtractItem)
  headers : Option (List (String × String))
  requiredSelectors : List String
  returnHtml : Bool

/-- Job-terminating failures of the embedded pipelines. -/
inductive JobErr where
  | navTimeout
  | selectorTimeout
  | extractError
deriving DecidableEq, Repr

/-- Outcome of a fetch job: a blocker payload (`buildBlockerPayload`, i.e.
`blocked: true` with the verdict) or the completed payload with its
`extracted` map and optional html. -/
inductive FetchOut where
  | blockedOut (v : Verdict)
  | done (extracted : Option (List (String × Option String)))
      (html : Option String)
deriving DecidableEq, Repr

/-- Outcome of a search job. -/
inductive SearchOut where
  | blockedS (v : Verdict)
  | resultsS (items : List SItem)
deriving DecidableEq, Repr

/-- Outcome of a maps job. -/
inductive MapsOut where
  | blockedM (v : Verdict)
  | resultsM (items : List MEntry)
deriving DecidableEq, Repr

/-- The explicit selector wait of the fetch endpoint (source lines 821–825):
performed only when `waitForSelector` is supplied, and — unlike the search and
maps endpoints — not wrapped in a `.catch`, so its timeout rejects the job. -/
def waitStepOk (req : FetchReq) (p : Page) : Bool :=
  match req.waitForSelector with
  | some sel => p.selectorFound sel
  | none => true

/-- The `extracted` value of a completed fetch job: attempted only when the
request's `extract` is a non-empty list; a throwing selector inside the
evaluate rejects it whole. -/
def fetchExtracted (req : FetchReq) (p : Page) :
    Except String (Option (List (String × Option String))) :=
  match req.extract with
  | some items =>
    if items.isEmpty then Except.ok none
    else Except.map some (extractFields p.queryErr p.query items)
  | none => Except.ok none

/-- The `/fetch` job pipeline (source lines 807–887): navigate, optionally
hard-wait for a selector, classify, and either return the blocker payload or
proceed to extraction; a rejected extract evaluate fails the whole job. -/
def fetchPipeline (req : FetchReq) (p : Page) : Except JobErr FetchOut :=
  if p.navOk = false then Except.error JobErr.navTimeout
  else if waitStepOk req p = false then Except.error JobErr.selectorTimeout
  else
    match detectAccessBlocker req.requiredSelectors p.snapshot with
    | some b => Except.ok (FetchOut.blockedOut b)
    | none =>
      match fetchExtracted req p with
      | Except.error _ => Except.error JobErr.extractError
      | Except.ok ex =>
        Except.ok (FetchOut.done ex (if req.returnHtml then some p.content else none))

/-- Required selectors the search endpoint always passes to the classifier
(source line 349). -/
def searchRequiredSelectors : List String :=
  ["#search .g", "#search .tF2Cxc", "#search .Gx5Zad"]

/-- The `/search` job pipeline (source lines 336–667): navigate, soft-wait for
`#search` (the wait's outcome is discarded by `.catch(() => \x7b\x7d)`),
classify against the hard-coded required selectors, and either return the
blocker payload or the extracted result list. -/
def searchPipeline (limit : Nat) (p : Page) : Except JobErr SearchOut :=
  if p.navOk = false then Except.error JobErr.navTimeout
  else
    let _soft := p.selectorFound "#search"
    match detectAccessBlocker searchRequiredSelectors p.snapshot with
    | some b => Except.ok (SearchOut.blockedS b)
    | none => Except.ok (SearchOut.resultsS (searchExtractGo limit p.resultCards [] []))

/-- Required selectors the maps endpoint always passes to the classifier
(source line 711). -/
def mapsRequiredSelectors : List String :=
  ["a.hfpxzc[href*=\"/place/\"]", ".Nv2PK", ".lMbq3e"]

/-- The `/maps` job pipeline (source lines 697–773): navigate, soft-wait for
`a.hfpxzc` (outcome discarded), classify, and either return the blocker
payload or run the scroll collector. -/
def mapsPipeline (limit : Nat) (scrollOn : Bool) (p : Page) :
    Except JobErr MapsOut :=
  if p.navOk = false then Except.error JobErr.navTimeout
  else
    let _soft := p.selectorFound "a.hfpxzc"
    match detectAccessBlocker mapsRequiredSelectors p.snapshot with
    | some b => Except.ok (MapsOut.blockedM b)
    | none =>
      Except.ok (MapsOut.resultsM (mapsCollector p.mapsSnap limit scrollOn p.mapsPanel))

/-! ## Serialized execution queue

Modelled from the spec: the queue itself is the `p-queue` dependency
(`new PQueue({ concurrency: CONCURRENCY })`, used by `runJob`), whose
implementation is not part of this repository's sources. Its contract is
taken from spec §4.2/§5: FIFO admission, and with concurrency 1 the next job
is not started until the current one has fully completed. -/

/-- State of the concurrency-1 queue: jobs still waiting in submission order,
the at-most-one job currently running, and the logs of starts and completions
in the order they happened. -/
structure QState where
  waiting : List Nat
  running : Option Nat
  started : List Nat
  completed : List Nat
deriving DecidableEq, Repr

/-- One scheduling step of the concurrency-1 queue: a waiting job may start
only when nothing is running, and the running job may complete. -/
inductive QStep : QState → QState → Prop where
  | start (j : Nat) (ws st cp : List Nat) :
      QStep ⟨j :: ws, none, st, cp⟩ ⟨ws, some j, st ++ [j], cp⟩
  | finish (j : Nat) (ws st cp : List Nat) :
      QStep ⟨ws, some j, st, cp⟩ ⟨ws, none, st, cp ++ [j]⟩

/-- Initial queue state for a submission sequence `jobs`. -/
def QInit (jobs : List Nat) : QState := ⟨jobs, none, [], []⟩

/-- States the queue can reach from the submission sequence `jobs`. -/
def QReach (jobs : List Nat) (s : QState) : Prop :=
  Relation.ReflTransGen QStep (QInit jobs) s

/-! ## Session lifecycle (source lines 48–100 and 900–914) -/

/-- The persistent browser context handle: identity, connectivity of its
underlying browser, and whether it has been closed. -/
structure Ctx where
  id : Nat
  connected : Bool
  closed : Bool
deriving DecidableEq, Repr

/-- The shared page handle. -/
structure Pg where
  id : Nat
  closed : Bool
deriving DecidableEq, Repr

/-- Module-level mutable state of the service: the `context` and `sharedPage`
variables, plus a fresh-identity counter standing for the fact that each
launch/newPage produces a handle distinct from every earlier one. -/
structure SvcState where
  ctx : Option Ctx
  pg : Option Pg
  nextId : Nat
deriving DecidableEq, Repr

/-- `launchBrowser` (source lines 48–90): reuse the current context when its
browser is still connected, otherwise launch a fresh persistent context. -/
def launchBrowserM (s : SvcState) : SvcState × Ctx :=
  match s.ctx with
  | some c =>
    if c.connected then (s, c)
    else
      let c' : Ctx := ⟨s.nextId, true, false⟩
      ({ s with ctx := some c', nextId := s.nextId + 1 }, c')
  | none =>
    let c' : Ctx := ⟨s.nextId, true, false⟩
    ({ s with ctx := some c', nextId := s.nextId + 1 }, c')

/-- `getSharedPage` (source lines 92–100): ensure a live context, then reuse
the shared page unless it is absent or closed, in which case a new page is
created on the context. -/
def getSharedPageM (s : SvcState) : SvcState × Pg :=
  let s1 := (launchBrowserM s).1
  match s1.pg with
  | some p =>
    if p.closed then
      let p' : Pg := ⟨s1.nextId, false⟩
      ({ s1 with pg := some p', nextId := s1.nextId + 1 }, p')
    else (s1, p)
  | none =>
    let p' : Pg := ⟨s1.nextId, false⟩
    ({ s1 with pg := some p', nextId := s1.nextId + 1 }, p')

/-- Closing a context: the driver call throws if the context is already
closed; the reset handler's guard is what keeps this from happening. -/
def ctxClose (c : Ctx) : Except String Unit :=
  if c.closed then Except.error "context already closed" else Except.ok ()

/-- The `/reset` handler (source lines 900–914): close the shared page if it
is open (errors swallowed by `.catch`), drop it, close the context if present
and not already closed (an error here would surface as a 500), drop it. -/
def resetService (s : SvcState) : Except String SvcState :=
  let s1 : SvcState := { s with pg := none }
  match s1.ctx with
  | some c =>
    if c.closed then Except.ok { s1 with ctx := none }
    else (ctxClose c).map fun _ => { s1 with ctx := none }
  | none => Except.ok s1

/-- Well-formedness of the service state: every live handle was produced by an
earlier allocation, so its id is below the fresh counter. -/
def SvcWF (s : SvcState) : Prop :=
  (∀ c, s.ctx = some c → c.id < s.nextId) ∧ (∀ p, s.pg = some p → p.id < s.nextId)

/-! ## Extra-HTTP-header state across jobs (source lines 807–810) -/

/-- A queued request, as far as the shared page's extra-header state is
concerned: only the fetch endpoint carries (optional) extra headers. -/
inductive ReqJob where
  | fetchJ (headers : Option (List (String × String)))
  | searchJ
  | mapsJ
deriving DecidableEq, Repr

/-- Is the job a fetch job? -/
def isFetchJob : ReqJob → Bool
  | ReqJob.fetchJ _ => true
  | _ => false

/-- Extra headers set on the shared page after a job runs: the fetch handler
always calls `page.setExtraHTTPHeaders(headers && typeof headers === 'object'
? headers : \x7b\x7d)`, while the search and maps handlers never touch the
page's extra headers. -/
def headersAfter (cur : List (String × String)) :
    ReqJob → List (String × String)
  | ReqJob.fetchJ h => h.getD []
  | ReqJob.searchJ => cur
  | ReqJob.mapsJ => cur

/-- Extra headers in effect when a job performs its navigation: the fetch
handler sets them right before `goto`; search and maps navigate with whatever
the page already carries. -/
def navHeaders (cur : List (String × String)) : ReqJob → List (String × String)
  | ReqJob.fetchJ h => h.getD []
  | ReqJob.searchJ => cur
  | ReqJob.mapsJ => cur

/-- Header state after a sequence of jobs runs on the shared page. -/
def runSeq (cur : List (String × String)) : List ReqJob → List (String × String)
  | [] => cur
  | j :: rest => runSeq (headersAfter cur j) rest

/-- The headers each job of a sequence navigates with, in order. -/
def navHeadersTrace (cur : List (String × String)) :
    List ReqJob → List (List (String × String))
  | [] => []
  | j :: rest => navHeaders cur j :: navHeadersTrace (headersAfter cur j) rest

/-! ## Claims -/

/-- C1: with concurrency 1, every reachable queue state has its start log a
prefix of the submission order (starts happen in submission order), its
completion log equal to the start log minus the at-most-one running job
(completions happen in start order, and the next job does not start until the
current one has completed — starting requires `running = none`), and when all
jobs have drained the completion order equals the submission order. -/
theorem queue_fifo_order (jobs : List Nat) (s : QState) (h : QReach jobs s) :
    s.started ++ s.waiting = jobs ∧
    s.completed ++ s.running.toList = s.started ∧
    (s.waiting = [] → s.running = none → s.completed = jobs) := by
  induction h with
  | refl => simp [QInit]
  | tail _ hstep ih =>
    obtain ⟨h1, h2, _⟩ := ih
    cases hstep with
    | start j ws st cp =>
      simp only [Option.toList] at h1 h2 ⊢
      refine ⟨?_, ?_, ?_⟩
      · rw [List.append_assoc]; simpa using h1
      · simpa using congrArg (· ++ [j]) (by simpa using h2)
      · intro _ hrun; cases hrun
    | finish j ws st cp =>
      simp only [Option.toList] at h1 h2 ⊢
      refine ⟨h1, by simpa using h2, ?_⟩
      · intro hw _
        rw [hw, List.append_nil] at h1
        simpa using h2.trans h1

/-- Witness for C1: the two-job submission `[0, 1]` run to completion reaches
the state with both logs equal to the submission order. -/
theorem queue_fifo_order_witness :
    (⟨[], none, [0, 1], [0, 1]⟩ : QState).started ++
        (⟨[], none, [0, 1], [0, 1]⟩ : QState).waiting = [0, 1] ∧
    (⟨[], none, [0, 1], [0, 1]⟩ : QState).completed ++
        Option.toList (⟨[], none, [0, 1], [0, 1]⟩ : QState).running =
      (⟨[], none, [0, 1], [0, 1]⟩ : QState).started ∧
    ((⟨[], none, [0, 1], [0, 1]⟩ : QState).waiting = [] →
      (⟨[], none, [0, 1], [0, 1]⟩ : QState).running = none →
      (⟨[], none, [0, 1], [0, 1]⟩ : QState).completed = [0, 1]) := by
  have hreach : QReach [0, 1] ⟨[], none, [0, 1], [0, 1]⟩ := by
    have s1 : QStep (QInit [0, 1]) ⟨[1], some 0, [0], []⟩ := QStep.start 0 [1] [] []
    have s2 : QStep ⟨[1], some 0, [0], []⟩ ⟨[1], none, [0], [0]⟩ :=
      QStep.finish 0 [1] [0] []
    have s3 : QStep ⟨[1], none, [0], [0]⟩ ⟨[], some 1, [0, 1], [0]⟩ :=
      QStep.start 1 [] [0] [0]
    have s4 : QStep ⟨[], some 1, [0, 1], [0]⟩ ⟨[], none, [0, 1], [0, 1]⟩ :=
      QStep.finish 1 [] [0, 1] [0]
    exact Relation.ReflTransGen.tail
      (Relation.ReflTransGen.tail
        (Relation.ReflTransGen.tail
          (Relation.ReflTransGen.tail Relation.ReflTransGen.refl s1) s2) s3) s4
  exact queue_fifo_order [0, 1] _ hreach

/-- C2: whenever at least one configured cookie selector matches (without its
query throwing) or at least one configured cookie phrase occurs in the body
text, the classification verdict has kind `cookie` — for every snapshot, so in
particular regardless of any co-occurring CAPTCHA selector, phrase, challenge
iframe source, or challenge markup. -/
theorem cookie_precedence (rs : List String) (s : Snapshot)
    (h : selectorHitList s cookieSelectors ≠ [] ∨
      phraseHitList s cookiePhrases ≠ []) :
    ∃ v, detectAccessBlocker rs (some s) = some v ∧ v.type = "cookie" := by
  have hcond : (!(selectorHitList s cookieSelectors).isEmpty ||
      !(phraseHitList s cookiePhrases).isEmpty) = true := by
    rcases h with h | h <;>
      · obtain ⟨x, xs, hx⟩ := List.exists_cons_of_ne_nil h
        rw [hx]
        simp
  refine ⟨⟨"cookie", "Detected cookie or consent banner covering the page",
    ⟨selectorHitList s cookieSelectors, phraseHitList s cookiePhrases, []⟩,
    missingRequiredB rs s⟩, ?_, rfl⟩
  simp only [detectAccessBlocker, classifySnapshot, hcond, if_true]

/-- Witness for C2: a page showing both a cookie banner selector and a
reCAPTCHA selector (plus a human-verification phrase) is still classified as a
cookie wall. -/
theorem cookie_precedence_witness :
    ∃ v, detectAccessBlocker ["#main"]
        (some ⟨"Please verify you are human", "",
          fun sel => sel == ".cookie-banner" || sel == ".g-recaptcha",
          fun _ => false, []⟩) = some v ∧ v.type = "cookie" :=
  cookie_precedence ["#main"] _ (Or.inl (by decide))

/-- When every selector of the spec list is valid, the extract evaluate
succeeds and is the pointwise map of per-field resolution. -/
theorem extractFields_ok_of_valid (qe : String → Bool) (q : String → Option Elem) :
    ∀ (items : List ExtractItem), (∀ it ∈ items, qe it.selector = false) →
      extractFields qe q items =
        Except.ok (items.map fun it => (it.name, extractValue q it)) := by
  intro items
  induction items with
  | nil => intro _; rfl
  | cons it0 rest ih =>
    intro hv
    have h0 : qe it0.selector = false := hv it0 (List.mem_cons_self _ _)
    have hrest : ∀ it ∈ rest, qe it.selector = false :=
      fun it hm => hv it (List.mem_cons_of_mem _ hm)
    rw [show extractFields qe q (it0 :: rest) =
        Except.map (fun tail => (it0.name, extractValue q it0) :: tail)
          (extractFields qe q rest) by
      simp [extractFields, extractField, h0]]
    rw [ih hrest]
    simp [Except.map]

/-- One invalid selector anywhere in the spec list rejects the whole extract
evaluate. -/
theorem extractFields_error_of_throw (qe : String → Bool) (q : String → Option Elem) :
    ∀ (items : List ExtractItem) (it : ExtractItem), it ∈ items →
      qe it.selector = true → ∃ e, extractFields qe q items = Except.error e := by
  intro items
  induction items with
  | nil =>
    intro it hmem _
    simp at hmem
  | cons it0 rest ih =>
    intro it hmem hq
    by_cases h0 : qe it0.selector = true
    · exact ⟨"invalid selector in extract evaluate",
        by simp [extractFields, extractField, h0]⟩
    · rcases List.mem_cons.mp hmem with rfl | hmem2
      · exact absurd hq h0
      · obtain ⟨e, he⟩ := ih it hmem2 hq
        refine ⟨e, ?_⟩
        simp [extractFields, extractField, h0, he, Except.map]

/-- A query-error capability under which the selector `[invalid` throws, as a
syntactically invalid selector does in `document.querySelector`. -/
def c5Throw : String → Bool := fun sel => sel == "[invalid"

/-- Extraction query of the C5 pages: `#t` resolves to a text element, every
other (valid) selector matches nothing. -/
def c5Query : String → Option Elem :=
  fun sel => if sel == "#t" then some ⟨"Hello", []⟩ else none

/-- An extract spec whose first field has an invalid (throwing) selector and
whose second field's selector resolves. -/
def c5Items : List ExtractItem :=
  [⟨"a", "[invalid", "innerText"⟩, ⟨"b", "#t", "innerText"⟩]

/-- A fetch request carrying `c5Items` as its `extract` list. -/
def c5Req : FetchReq := ⟨"https://q.test", none, some c5Items, none, [], false⟩

/-- A page reaching extraction (navigation ok, no configured wait, no blocker
verdict) whose `querySelector` throws exactly on `[invalid`. -/
def c5Page : Page :=
  ⟨true, fun _ => true, none, c5Throw, c5Query, [], fun _ => [], true, ""⟩

/-- Counterexample for C5: the source's extract evaluate has no per-field
try/catch, so a field whose selector throws does not become `null` — the
whole evaluate rejects, the other field's resolution is lost (alone it would
have resolved), and the whole fetch job fails. -/
theorem field_extraction_throw_counterexample :
    extractFields c5Throw c5Query c5Items =
      Except.error "invalid selector in extract evaluate" ∧
    extractFields c5Throw c5Query [⟨"b", "#t", "innerText"⟩] =
      Except.ok [("b", some "Hello")] ∧
    fetchPipeline c5Req c5Page = Except.error JobErr.extractError :=
  ⟨rfl, rfl, rfl⟩

/-- C5 (amended): when every selector in the spec list is valid, the extract
evaluate succeeds as the pointwise map of per-field resolution — a field
whose selector matches nothing is mapped to `null`, and replacing one entry
by another valid one leaves every other position's result unchanged. But a
field whose selector throws has no per-field handling: it rejects the whole
extract evaluate, losing every field's resolution, and fails the whole fetch
job. -/
theorem field_extraction_valid_isolation (qe : String → Bool)
    (q : String → Option Elem) (items : List ExtractItem) :
    ((∀ it ∈ items, qe it.selector = false) →
      extractFields qe q items =
        Except.ok (items.map fun it => (it.name, extractValue q it))) ∧
    (∀ (i : Nat) (it : ExtractItem), (∀ it0 ∈ items, qe it0.selector = false) →
      items[i]? = some it → q it.selector = none →
      ∃ l, extractFields qe q items = Except.ok l ∧
        l[i]? = some (it.name, none)) ∧
    (∀ (i j : Nat) (it' : ExtractItem), i ≠ j →
      (∀ it0 ∈ items, qe it0.selector = false) →
      (∀ it0 ∈ items.set i it', qe it0.selector = false) →
      ∃ l l', extractFields qe q items = Except.ok l ∧
        extractFields qe q (items.set i it') = Except.ok l' ∧ l'[j]? = l[j]?) ∧
    (∀ it ∈ items, qe it.selector = true →
      ∃ e, extractFields qe q items = Except.error e) ∧
    (∀ (req : FetchReq) (p : Page), p.navOk = true → waitStepOk req p = true →
      detectAccessBlocker req.requiredSelectors p.snapshot = none →
      req.extract = some items → items.isEmpty = false →
      p.queryErr = qe → p.query = q →
      (∃ it, it ∈ items ∧ qe it.selector = true) →
      fetchPipeline req p = Except.error JobErr.extractError) := by
  refine ⟨extractFields_ok_of_valid qe q items, ?_, ?_,
    fun it hm hq => extractFields_error_of_throw qe q items it hm hq, ?_⟩
  · intro i it hv hit hq
    refine ⟨items.map fun it => (it.name, extractValue q it),
      extractFields_ok_of_valid qe q items hv, ?_⟩
    rw [List.getElem?_map, hit]
    simp [extractValue, hq]
  · intro i j it' hij hv hv'
    refine ⟨items.map fun it => (it.name, extractValue q it),
      (items.set i it').map fun it => (it.name, extractValue q it),
      extractFields_ok_of_valid qe q items hv,
      extractFields_ok_of_valid qe q (items.set i it') hv', ?_⟩
    rw [List.getElem?_map, List.getElem?_map, List.getElem?_set_ne hij]
  · rintro req p hnav hwait hdet hex hne hqe hq ⟨it, hmem, hthrow⟩
    obtain ⟨e, he⟩ := extractFields_error_of_throw qe q items it hmem hthrow
    simp [fetchPipeline, hnav, hwait, hdet, fetchExtracted, hex, hne, hqe, hq,
      he, Except.map]

/-- Witness for the amended C5: with all-valid selectors, the two-field spec
resolves pointwise (missing selector becomes `null`, replacing the first
entry leaves the second untouched); with the invalid first selector the whole
evaluate errors and the concrete fetch job fails. -/
theorem field_extraction_valid_isolation_witness :
    extractFields (fun _ => false) c5Query
        [⟨"a", "#missing", "innerText"⟩, ⟨"b", "#t", "innerText"⟩] =
      Except.ok [("a", none), ("b", some "Hello")] ∧
    (∃ l, extractFields (fun _ => false) c5Query
        [⟨"a", "#missing", "innerText"⟩, ⟨"b", "#t", "innerText"⟩] =
      Except.ok l ∧ l[0]? = some ("a", none)) ∧
    (∃ l l', extractFields (fun _ => false) c5Query
        [⟨"a", "#missing", "innerText"⟩, ⟨"b", "#t", "innerText"⟩] =
        Except.ok l ∧
      extractFields (fun _ => false) c5Query
        ([⟨"a", "#missing", "innerText"⟩, ⟨"b", "#t", "innerText"⟩].set 0
          ⟨"a", "#t", "innerText"⟩) = Except.ok l' ∧ l'[1]? = l[1]?) ∧
    (∃ e, extractFields c5Throw c5Query c5Items = Except.error e) ∧
    fetchPipeline c5Req c5Page = Except.error JobErr.extractError := by
  refine ⟨?_, ?_, ?_, ?_, ?_⟩
  · exact (field_extraction_valid_isolation (fun _ => false) c5Query
      [⟨"a", "#missing", "innerText"⟩, ⟨"b", "#t", "innerText"⟩]).1 (by decide)
  · exact (field_extraction_valid_isolation (fun _ => false) c5Query
      [⟨"a", "#missing", "innerText"⟩, ⟨"b", "#t", "innerText"⟩]).2.1 0
      ⟨"a", "#missing", "innerText"⟩ (by decide) rfl rfl
  · exact (field_extraction_valid_isolation (fun _ => false) c5Query
      [⟨"a", "#missing", "innerText"⟩, ⟨"b", "#t", "innerText"⟩]).2.2.1 0 1
      ⟨"a", "#t", "innerText"⟩ (by decide) (by decide) (by decide)
  · exact (field_extraction_valid_isolation c5Throw c5Query c5Items).2.2.2.1
      ⟨"a", "[invalid", "innerText"⟩ (by decide) rfl
  · exact (field_extraction_valid_isolation c5Throw c5Query c5Items).2.2.2.2
      c5Req c5Page rfl rfl rfl rfl rfl rfl rfl
      ⟨⟨"a", "[invalid", "innerText"⟩, by decide, rfl⟩

/-- C7: when the classification evaluate itself throws (snapshot `none`), the
classifier returns no verdict, and the fetch pipeline's outcome is exactly the
outcome it would have on the same page with any snapshot that classifies to no
verdict (`NONE`-equivalent): the classification failure is never fatal. -/
theorem classifier_fail_open :
    (∀ rs : List String, detectAccessBlocker rs none = none) ∧
    (∀ (req : FetchReq) (p : Page) (s : Snapshot), p.snapshot = none →
      classifySnapshot req.requiredSelectors s = none →
      fetchPipeline req p = fetchPipeline req { p with snapshot := some s }) := by
  refine ⟨fun _ => rfl, ?_⟩
  intro req p s hp hs
  simp only [fetchPipeline, waitStepOk, fetchExtracted, detectAccessBlocker, hp, hs]

/-- Witness for C7: a fetch job whose classification evaluate throws completes
with the same payload as the same page carrying an empty (no-verdict)
snapshot. -/
theorem classifier_fail_open_witness :
    detectAccessBlocker ["#required"] none = none ∧
    fetchPipeline ⟨"https://x.test", none, none, none, [], false⟩
        ⟨true, fun _ => true, none, fun _ => false, fun _ => none, [], fun _ => [], true, ""⟩ =
      fetchPipeline ⟨"https://x.test", none, none, none, [], false⟩
        ⟨true, fun _ => true,
          some ⟨"", "", fun _ => false, fun _ => false, []⟩,
          fun _ => false, fun _ => none, [], fun _ => [], true, ""⟩ := by
  refine ⟨(classifier_fail_open).1 ["#required"], ?_⟩
  exact (classifier_fail_open).2 ⟨"https://x.test", none, none, none, [], false⟩
    ⟨true, fun _ => true, none, fun _ => false, fun _ => none, [], fun _ => [], true, ""⟩
    ⟨"", "", fun _ => false, fun _ => false, []⟩ rfl (by decide)

/-- C8: a fetch job that reaches classification (navigation succeeded and the
optional hard selector wait did not time out) on a page whose body text
contains the phrase "accept all cookies" ends in the blocker payload
(`blocked: true`) whose verdict kind is `cookie` and whose evidence phrases
include "accept all cookies". -/
theorem cookie_phrase_blocked (req : FetchReq) (p : Page) (s : Snapshot)
    (hnav : p.navOk = true) (hwait : waitStepOk req p = true)
    (hsnap : p.snapshot = some s)
    (hbody : strIncl s.bodyText "accept all cookies" = true) :
    ∃ v, fetchPipeline req p = Except.ok (FetchOut.blockedOut v) ∧
      v.type = "cookie" ∧ "accept all cookies" ∈ v.evidence.phrases := by
  have hlow : strIncl (lowerStr s.bodyText) "accept all cookies" = true :=
    strIncl_lowerStr _ _ (by decide) hbody
  have hmem : "accept all cookies" ∈ phraseHitList s cookiePhrases := by
    refine List.mem_filter.mpr ⟨?_, hlow⟩
    simp [cookiePhrases]
  have hcond : (!(selectorHitList s cookieSelectors).isEmpty ||
      !(phraseHitList s cookiePhrases).isEmpty) = true := by
    obtain ⟨x, xs, hx⟩ := List.exists_cons_of_ne_nil (List.ne_nil_of_mem hmem)
    rw [hx]
    simp
  refine ⟨⟨"cookie", "Detected cookie or consent banner covering the page",
    ⟨selectorHitList s cookieSelectors, phraseHitList s cookiePhrases, []⟩,
    missingRequiredB req.requiredSelectors s⟩, ?_, rfl, hmem⟩
  simp only [fetchPipeline, hnav, hwait, hsnap, detectAccessBlocker,
    classifySnapshot, hcond, if_true]
  simp

/-- Witness for C8: a concrete fetch job against a page whose body reads
"please accept all cookies before continuing" is blocked with a cookie verdict
whose evidence phrases include "accept all cookies". -/
theorem cookie_phrase_blocked_witness :
    ∃ v, fetchPipeline ⟨"https://y.test", none, none, none, [], false⟩
        ⟨true, fun _ => true,
          some ⟨"please accept all cookies before continuing", "",
            fun _ => false, fun _ => false, []⟩,
          fun _ => false, fun _ => none, [], fun _ => [], true, ""⟩ =
        Except.ok (FetchOut.blockedOut v) ∧
      v.type = "cookie" ∧ "accept all cookies" ∈ v.evidence.phrases :=
  cookie_phrase_blocked ⟨"https://y.test", none, none, none, [], false⟩
    ⟨true, fun _ => true,
      some ⟨"please accept all cookies before continuing", "",
        fun _ => false, fun _ => false, []⟩,
      fun _ => false, fun _ => none, [], fun _ => [], true, ""⟩
    ⟨"please accept all cookies before continuing", "",
      fun _ => false, fun _ => false, []⟩
    rfl rfl rfl (by decide)

/-- C10: a fetch job sets the shared page's extra HTTP headers to its supplied
headers (or to the empty set when none are given), and every subsequent search
or maps job both leaves that state unchanged and navigates with exactly those
headers still applied; only another fetch job overwrites them. -/
theorem extra_headers_persist (cur : List (String × String))
    (h : Option (List (String × String))) (js : List ReqJob)
    (hnf : ∀ j ∈ js, isFetchJob j = false) :
    runSeq cur (ReqJob.fetchJ h :: js) = h.getD [] ∧
    (∀ hd ∈ navHeadersTrace (headersAfter cur (ReqJob.fetchJ h)) js,
      hd = h.getD []) ∧
    headersAfter (h.getD []) ReqJob.searchJ = h.getD [] ∧
    headersAfter (h.getD []) ReqJob.mapsJ = h.getD [] := by
  have key : ∀ (l : List ReqJob) (c : List (String × String)),
      (∀ j ∈ l, isFetchJob j = false) →
      runSeq c l = c ∧ ∀ hd ∈ navHeadersTrace c l, hd = c := by
    intro l
    induction l with
    | nil => intro c _; exact ⟨rfl, by simp [navHeadersTrace]⟩
    | cons j rest ih =>
      intro c hl
      have hj : isFetchJob j = false := hl j (List.mem_cons_self j rest)
      have hrest : ∀ j' ∈ rest, isFetchJob j' = false :=
        fun j' hj' => hl j' (List.mem_cons_of_mem j hj')
      cases j with
      | fetchJ hh => simp [isFetchJob] at hj
      | searchJ =>
        obtain ⟨h1, h2⟩ := ih c hrest
        refine ⟨by simpa [runSeq, headersAfter] using h1, ?_⟩
        intro hd hmem
        simp only [navHeadersTrace, headersAfter, navHeaders, List.mem_cons] at hmem
        rcases hmem with rfl | hmem
        · rfl
        · exact h2 hd hmem
      | mapsJ =>
        obtain ⟨h1, h2⟩ := ih c hrest
        refine ⟨by simpa [runSeq, headersAfter] using h1, ?_⟩
        intro hd hmem
        simp only [navHeadersTrace, headersAfter, navHeaders, List.mem_cons] at hmem
        rcases hmem with rfl | hmem
        · rfl
        · exact h2 hd hmem
  obtain ⟨h1, h2⟩ := key js (h.getD []) hnf
  exact ⟨by simpa [runSeq, headersAfter] using h1,
    by simpa [headersAfter] using h2, rfl, rfl⟩

/-- Witness for C10: after a fetch job supplying one extra header, a search
job and a maps job both run and navigate with that header still applied. -/
theorem extra_headers_persist_witness :
    runSeq [("x-old", "1")]
        (ReqJob.fetchJ (some [("x-new", "2")]) :: [ReqJob.searchJ, ReqJob.mapsJ]) =
      (some [("x-new", "2")]).getD [] ∧
    (∀ hd ∈ navHeadersTrace
        (headersAfter [("x-old", "1")] (ReqJob.fetchJ (some [("x-new", "2")])))
        [ReqJob.searchJ, ReqJob.mapsJ], hd = (some [("x-new", "2")]).getD []) ∧
    headersAfter ((some [("x-new", "2")]).getD []) ReqJob.searchJ =
      (some [("x-new", "2")]).getD [] ∧
    headersAfter ((some [("x-new", "2")]).getD []) ReqJob.mapsJ =
      (some [("x-new", "2")]).getD [] :=
  extra_headers_persist [("x-old", "1")] (some [("x-new", "2")])
    [ReqJob.searchJ, ReqJob.mapsJ] (by decide)

/-- Snapshot of a page with no cookie/CAPTCHA markup and no matching selector
at all (in particular zero search result containers). -/
def c3Snap : Snapshot := ⟨"", "", fun _ => false, fun _ => false, []⟩

/-- A search job's page that yields zero matching result containers and
carries no blocker markup. -/
def c3Page : Page :=
  ⟨true, fun _ => false, some c3Snap, fun _ => false, fun _ => none, [], fun _ => [], true, ""⟩

/-- Counterexample for C3: on a page with zero matching result containers and
no blocker markup (and a search request carries no required-selector field of
its own), the search job does not complete with `results: []` — it returns a
blocker payload, because the endpoint itself always passes the three result
container selectors as required selectors and they are absent. -/
theorem search_empty_counterexample :
    c3Page.resultCards = [] ∧
    selectorHitList c3Snap cookieSelectors = [] ∧
    phraseHitList c3Snap cookiePhrases = [] ∧
    selectorHitList c3Snap captchaSelectors = [] ∧
    phraseHitList c3Snap captchaPhrases = [] ∧
    captchaIframeHits c3Snap = [] ∧
    cloudflareMarkers c3Snap = false ∧
    searchPipeline 20 c3Page ≠ Except.ok (SearchOut.resultsS []) ∧
    searchPipeline 20 c3Page =
      Except.ok (SearchOut.blockedS
        ⟨"unknown", "Required page content was not found after navigation",
          ⟨searchRequiredSelectors, [], []⟩, true⟩) := by
  refine ⟨rfl, rfl, rfl, rfl, rfl, rfl, rfl, ?_, rfl⟩
  intro hcontra
  rw [show searchPipeline 20 c3Page =
      Except.ok (SearchOut.blockedS
        ⟨"unknown", "Required page content was not found after navigation",
          ⟨searchRequiredSelectors, [], []⟩, true⟩) from rfl] at hcontra
  exact SearchOut.noConfusion (Except.ok.inj hcontra)

/-- C3 (amended): a search job whose page yields zero matching result
containers (no rendered result cards, and none of the endpoint's three
hard-coded required container selectors present) and contains no cookie or
CAPTCHA blocker markup is BLOCKED with verdict kind `unknown` and
`missingRequired = true` — not completed with empty results — because the
search endpoint always configures required selectors itself. -/
theorem search_empty_blocked_unknown (limit : Nat) (p : Page) (s : Snapshot)
    (hnav : p.navOk = true) (hsnap : p.snapshot = some s)
    (_hcards : p.resultCards = [])
    (hreq : ∀ sel ∈ searchRequiredSelectors,
      (s.selErr sel || !s.selMatch sel) = true)
    (hcookieSel : selectorHitList s cookieSelectors = [])
    (hcookiePh : phraseHitList s cookiePhrases = [])
    (hcapSel : selectorHitList s captchaSelectors = [])
    (hcapPh : phraseHitList s captchaPhrases = [])
    (hifr : captchaIframeHits s = [])
    (hcf : cloudflareMarkers s = false) :
    searchPipeline limit p =
      Except.ok (SearchOut.blockedS
        ⟨"unknown", "Required page content was not found after navigation",
          ⟨searchRequiredSelectors, [], []⟩, true⟩) := by
  have hmr : missingRequiredB searchRequiredSelectors s = true := by
    unfold missingRequiredB
    rw [Bool.and_eq_true, List.all_eq_true]
    exact ⟨rfl, hreq⟩
  simp only [searchPipeline, hnav, detectAccessBlocker, hsnap, classifySnapshot,
    hcookieSel, hcookiePh, hcapSel, hcapPh, hifr, hcf, hmr]
  simp

/-- Witness for the amended C3: the concrete empty page is blocked with the
`unknown` missing-required verdict. -/
theorem search_empty_blocked_unknown_witness :
    searchPipeline 20 c3Page =
      Except.ok (SearchOut.blockedS
        ⟨"unknown", "Required page content was not found after navigation",
          ⟨searchRequiredSelectors, [], []⟩, true⟩) :=
  search_empty_blocked_unknown 20 c3Page c3Snap rfl rfl rfl (by decide)
    rfl rfl rfl rfl rfl rfl

/-- Counterexample for C4: a fetch job performing an explicit selector wait
whose awaited selector never appears terminates with a `selectorTimeout`
failure instead of proceeding to classification — the fetch endpoint's wait,
unlike the search and maps ones, has no `.catch`. -/
theorem fetch_wait_hard_counterexample :
    (⟨"https://z.test", some "#main", none, none, [], false⟩ : FetchReq).waitForSelector =
      some "#main" ∧
    (⟨true, fun _ => false, none, fun _ => false, fun _ => none, [], fun _ => [], true, ""⟩ :
      Page).selectorFound "#main" = false ∧
    fetchPipeline ⟨"https://z.test", some "#main", none, none, [], false⟩
        ⟨true, fun _ => false, none, fun _ => false, fun _ => none, [], fun _ => [], true, ""⟩ =
      Except.error JobErr.selectorTimeout :=
  ⟨rfl, rfl, rfl⟩

/-- C4 (amended): the selector waits of the search and maps endpoints are soft
— their outcome is discarded by a `.catch`, so with navigation succeeded the
job always proceeds to classification/extraction and returns an ok outcome
even when the awaited selector never appears — while the fetch endpoint's
explicit selector wait is hard: its timeout terminates the job FAILED with
`selectorTimeout`, before classification or extraction. -/
theorem selector_wait_softness :
    (∀ (limit : Nat) (p : Page), p.navOk = true →
      p.selectorFound "#search" = false →
      ∃ out, searchPipeline limit p = Except.ok out) ∧
    (∀ (limit : Nat) (scroll : Bool) (p : Page), p.navOk = true →
      p.selectorFound "a.hfpxzc" = false →
      ∃ out, mapsPipeline limit scroll p = Except.ok out) ∧
    (∀ (req : FetchReq) (p : Page) (sel : String), p.navOk = true →
      req.waitForSelector = some sel → p.selectorFound sel = false →
      fetchPipeline req p = Except.error JobErr.selectorTimeout) := by
  refine ⟨?_, ?_, ?_⟩
  · intro limit p hnav _
    cases hd : detectAccessBlocker searchRequiredSelectors p.snapshot with
    | some b =>
      exact ⟨SearchOut.blockedS b, by simp [searchPipeline, hnav, hd]⟩
    | none =>
      exact ⟨SearchOut.resultsS (searchExtractGo limit p.resultCards [] []),
        by simp [searchPipeline, hnav, hd]⟩
  · intro limit scroll p hnav _
    cases hd : detectAccessBlocker mapsRequiredSelectors p.snapshot with
    | some b =>
      exact ⟨MapsOut.blockedM b, by simp [mapsPipeline, hnav, hd]⟩
    | none =>
      exact ⟨MapsOut.resultsM (mapsCollector p.mapsSnap limit scroll p.mapsPanel),
        by simp [mapsPipeline, hnav, hd]⟩
  · intro req p sel hnav hw hfound
    simp [fetchPipeline, hnav, waitStepOk, hw, hfound]

/-- Witness for the amended C4: on a page where every selector wait times out,
the search and maps jobs still return ok outcomes while the fetch job with an
explicit selector wait fails with `selectorTimeout`. -/
theorem selector_wait_softness_witness :
    (∃ out, searchPipeline 20
        ⟨true, fun _ => false, none, fun _ => false, fun _ => none, [], fun _ => [], true, ""⟩ =
      Except.ok out) ∧
    (∃ out, mapsPipeline 20 true
        ⟨true, fun _ => false, none, fun _ => false, fun _ => none, [], fun _ => [], true, ""⟩ =
      Except.ok out) ∧
    fetchPipeline ⟨"https://w.test", some "#body", none, none, [], false⟩
        ⟨true, fun _ => false, none, fun _ => false, fun _ => none, [], fun _ => [], true, ""⟩ =
      Except.error JobErr.selectorTimeout :=
  ⟨selector_wait_softness.1 20 _ rfl rfl,
   selector_wait_softness.2.1 20 true _ rfl rfl,
   selector_wait_softness.2.2 ⟨"https://w.test", some "#body", none, none, [], false⟩
     _ "#body" rfl rfl rfl⟩

theorem alookup_append_some {α : Type} (key : String) (v : α)
    (m t : List (String × α)) (h : alookup key m = some v) :
    alookup key (m ++ t) = some v := by
  induction m with
  | nil => simp [alookup] at h
  | cons p rest ih =>
    obtain ⟨k, w⟩ := p
    by_cases hk : key = k
    · simp [alookup, hk] at h ⊢
      exact h
    · simp [alookup, hk] at h ⊢
      exact ih h

theorem alookup_none_nomem {α : Type} (key : String) (m : List (String × α))
    (h : (alookup key m).isSome = false) : key ∉ m.map Prod.fst := by
  induction m with
  | nil => simp
  | cons p rest ih =>
    obtain ⟨k, w⟩ := p
    by_cases hk : key = k
    · simp [alookup, hk] at h
    · intro hmem
      have hmem2 : key ∈ k :: rest.map Prod.fst := by simpa using hmem
      rcases List.mem_cons.mp hmem2 with h1 | h1
      · exact hk h1
      · exact ih (by simpa [alookup, hk] using h) h1

/-- Each pass of the collector's `scrape` only appends: the dedup map before
the pass is an unchanged initial segment of the map after it. -/
theorem scrape_extends (cards : List MCard) (m : List (String × MEntry)) :
    ∃ tail, scrape cards m = m ++ tail := by
  induction cards generalizing m with
  | nil => exact ⟨[], by simp [scrape]⟩
  | cons c rest ih =>
    cases hh : c.href with
    | none =>
      cases ht : c.title <;>
        · rw [show scrape (c :: rest) m = scrape rest m by simp [scrape, hh, ht]]
          exact ih m
    | some hv =>
      cases ht : c.title with
      | none =>
        rw [show scrape (c :: rest) m = scrape rest m by simp [scrape, hh, ht]]
        exact ih m
      | some tv =>
        cases hl : (alookup hv m : Option MEntry).isSome with
        | true =>
          rw [show scrape (c :: rest) m = scrape rest m by
            simp [scrape, hh, ht, hl]]
          exact ih m
        | false =>
          rw [show scrape (c :: rest) m =
              scrape rest (m ++ [(hv, ⟨tv, hv, c.rating, c.reviews, c.descriptor⟩)]) by
            simp [scrape, hh, ht, hl]]
          obtain ⟨t2, ht2⟩ :=
            ih (m ++ [(hv, ⟨tv, hv, c.rating, c.reviews, c.descriptor⟩)])
          exact ⟨(hv, ⟨tv, hv, c.rating, c.reviews, c.descriptor⟩) :: t2,
            by rw [ht2, List.append_assoc]; rfl⟩

/-- A pass of `scrape` never removes or overwrites an existing entry: every
href key already collected still resolves to the same entry afterwards. -/
theorem scrape_lookup_mono (cards : List MCard) (m : List (String × MEntry))
    (key : String) (v : MEntry) (h : alookup key m = some v) :
    alookup key (scrape cards m) = some v := by
  obtain ⟨tail, ht⟩ := scrape_extends cards m
  rw [ht]
  exact alookup_append_some key v m tail h

/-- Invariant of the collector's dedup map: keys are pairwise distinct and
each stored entry's `href` equals its key. -/
def goodMap (m : List (String × MEntry)) : Prop :=
  (m.map Prod.fst).Nodup ∧ ∀ p ∈ m, (Prod.snd p).href = p.1

theorem scrape_good (cards : List MCard) :
    ∀ m, goodMap m → goodMap (scrape cards m) := by
  induction cards with
  | nil => intro m h; simpa [scrape] using h
  | cons c rest ih =>
    intro m hgd
    cases hh : c.href with
    | none =>
      cases ht : c.title <;>
        · rw [show scrape (c :: rest) m = scrape rest m by simp [scrape, hh, ht]]
          exact ih m hgd
    | some hv =>
      cases ht : c.title with
      | none =>
        rw [show scrape (c :: rest) m = scrape rest m by simp [scrape, hh, ht]]
        exact ih m hgd
      | some tv =>
        cases hl : (alookup hv m : Option MEntry).isSome with
        | true =>
          rw [show scrape (c :: rest) m = scrape rest m by
            simp [scrape, hh, ht, hl]]
          exact ih m hgd
        | false =>
          rw [show scrape (c :: rest) m =
              scrape rest (m ++ [(hv, ⟨tv, hv, c.rating, c.reviews, c.descriptor⟩)]) by
            simp [scrape, hh, ht, hl]]
          refine ih _ ⟨?_, ?_⟩
          · have hnm : hv ∉ m.map Prod.fst := alookup_none_nomem hv m hl
            simp [List.nodup_append, hgd.1, hnm]
          · intro p hp
            rcases List.mem_append.mp hp with hp | hp
            · exact hgd.2 p hp
            · rcases List.mem_singleton.mp hp with rfl
              rfl

theorem mapsLoopAux_good (snap : Nat → List MCard) (maxR : Nat)
    (sOn pOn : Bool) :
    ∀ (fuel k : Nat) (m : List (String × MEntry)), goodMap m →
      goodMap (mapsLoopAux snap maxR sOn pOn fuel k m).2 := by
  intro fuel
  induction fuel with
  | zero => intro k m h; simpa [mapsLoopAux] using h
  | succ f ih =>
    intro k m h
    unfold mapsLoopAux
    by_cases hc : (decide (m.length < maxR) && sOn && pOn) = true
    · simp only [hc]
      simp only [if_pos]
      exact ih (k + 1) (scrape (snap k) m) (scrape_good (snap k) m h)
    · simp only [Bool.not_eq_true] at hc
      simp only [hc]
      simp
      exact h

/-- The scroll loop runs until the collected count reaches the requested
count or the 20-iteration cap is hit (scrolling enabled, panel present). -/
theorem mapsLoopAux_stop (snap : Nat → List MCard) (maxR : Nat) :
    ∀ (fuel k : Nat) (m : List (String × MEntry)), fuel + k = 20 →
      maxR ≤ (mapsLoopAux snap maxR true true fuel k m).2.length ∨
      (mapsLoopAux snap maxR true true fuel k m).1 = 20 := by
  intro fuel
  induction fuel with
  | zero =>
    intro k m hk
    right
    simpa [mapsLoopAux] using hk
  | succ f ih =>
    intro k m hk
    unfold mapsLoopAux
    by_cases hm : m.length < maxR
    · simp only [hm]
      simp
      exact ih (k + 1) (scrape (snap k) m) (by omega)
    · simp [hm]
      exact Or.inl (Nat.le_of_not_lt hm)

/-- C6: for a maps job with scrolling enabled and a result panel present, the
collector (i) repeats scrape-and-scroll passes until at least `maxResults`
unique entries are collected or the 20-iteration cap is reached, (ii) each
pass only appends to the dedup map and never removes or overwrites an existing
entry for an already-collected href key, and (iii) the returned list holds at
most `maxResults` entries with pairwise-distinct href keys. -/
theorem maps_collector_props (snap : Nat → List MCard) (maxResults : Nat)
    (scrollOn panelOn : Bool) (hS : scrollOn = true) (hP : panelOn = true) :
    (∀ (cards : List MCard) (m : List (String × MEntry)),
      (∃ tail, scrape cards m = m ++ tail) ∧
      (∀ (key : String) (v : MEntry), alookup key m = some v →
        alookup key (scrape cards m) = some v)) ∧
    (mapsCollector snap maxResults scrollOn panelOn).length ≤ maxResults ∧
    ((mapsCollector snap maxResults scrollOn panelOn).map MEntry.href).Nodup ∧
    (maxResults ≤ (mapsLoopAux snap maxResults scrollOn panelOn 20 0 []).2.length ∨
      (mapsLoopAux snap maxResults scrollOn panelOn 20 0 []).1 = 20) := by
  subst hS hP
  refine ⟨fun cards m =>
    ⟨scrape_extends cards m, fun key v h => scrape_lookup_mono cards m key v h⟩,
    ?_, ?_, mapsLoopAux_stop snap maxResults 20 0 [] rfl⟩
  · unfold mapsCollector
    rw [List.length_take]
    exact Nat.min_le_left _ _
  · have hgood : goodMap (scrape
        (snap (mapsLoopAux snap maxResults true true 20 0 []).1)
        (mapsLoopAux snap maxResults true true 20 0 []).2) :=
      scrape_good _ _
        (mapsLoopAux_good snap maxResults true true 20 0 [] ⟨List.nodup_nil, by simp⟩)
    unfold mapsCollector
    rw [List.map_take, List.map_map]
    have hmapeq : (scrape (snap (mapsLoopAux snap maxResults true true 20 0 []).1)
          (mapsLoopAux snap maxResults true true 20 0 []).2).map
            (MEntry.href ∘ Prod.snd) =
        (scrape (snap (mapsLoopAux snap maxResults true true 20 0 []).1)
          (mapsLoopAux snap maxResults true true 20 0 []).2).map Prod.fst :=
      List.map_congr_left fun p hp => hgood.2 p hp
    rw [hmapeq]
    exact (List.take_sublist _ _).nodup hgood.1

/-- Witness for C6 on a concrete growing panel: two cards initially, one more
card per scroll pass, requested count 3. -/
theorem maps_collector_props_witness :
    (∀ (cards : List MCard) (m : List (String × MEntry)),
      (∃ tail, scrape cards m = m ++ tail) ∧
      (∀ (key : String) (v : MEntry), alookup key m = some v →
        alookup key (scrape cards m) = some v)) ∧
    (mapsCollector
        (fun k => (List.range (2 + k)).map fun i =>
          ⟨some (toString i), some (toString i), none, none, none⟩)
        3 true true).length ≤ 3 ∧
    ((mapsCollector
        (fun k => (List.range (2 + k)).map fun i =>
          ⟨some (toString i), some (toString i), none, none, none⟩)
        3 true true).map MEntry.href).Nodup ∧
    (3 ≤ (mapsLoopAux
        (fun k => (List.range (2 + k)).map fun i =>
          ⟨some (toString i), some (toString i), none, none, none⟩)
        3 true true 20 0 []).2.length ∨
      (mapsLoopAux
        (fun k => (List.range (2 + k)).map fun i =>
          ⟨some (toString i), some (toString i), none, none, none⟩)
        3 true true 20 0 []).1 = 20) :=
  maps_collector_props
    (fun k => (List.range (2 + k)).map fun i =>
      ⟨some (toString i), some (toString i), none, none, none⟩)
    3 true true rfl rfl

/-- C9: resetting the session twice in succession produces no error (the
second reset finds the handles already torn down and its guards skip the
closes, so reset is idempotent), leaves both handles absent, and the next
acquire succeeds by launching a fresh session: a newly created context and
page whose identities differ from any handle held before the resets. -/
theorem reset_idempotent_acquire_fresh (s : SvcState) (hwf : SvcWF s) :
    ∃ s1 s2, resetService s = Except.ok s1 ∧ resetService s1 = Except.ok s2 ∧
      s1 = s2 ∧ s2.ctx = none ∧ s2.pg = none ∧
      (getSharedPageM s2).2 = ⟨s.nextId + 1, false⟩ ∧
      (getSharedPageM s2).1.ctx = some ⟨s.nextId, true, false⟩ ∧
      (∀ c0, s.ctx = some c0 → c0.id ≠ s.nextId) ∧
      (∀ p0, s.pg = some p0 → p0.id ≠ s.nextId + 1) := by
  obtain ⟨hwc, hwp⟩ := hwf
  refine ⟨⟨none, none, s.nextId⟩, ⟨none, none, s.nextId⟩, ?_, rfl, rfl, rfl, rfl,
    rfl, rfl, ?_, ?_⟩
  · unfold resetService
    cases hc : s.ctx with
    | none => simp [hc]
    | some c =>
      by_cases hcl : c.closed = true
      · simp [hc, hcl]
      · simp [hc, hcl, ctxClose, Except.map]
  · intro c0 h0
    have := hwc c0 h0
    omega
  · intro p0 h0
    have := hwp p0 h0
    omega

/-- Witness for C9: a service holding a live context (id 0) and page (id 1)
resets twice without error and then acquires a fresh context (id 2) and page
(id 3). -/
theorem reset_idempotent_acquire_fresh_witness :
    ∃ s1 s2,
      resetService ⟨some ⟨0, true, false⟩, some ⟨1, false⟩, 2⟩ = Except.ok s1 ∧
      resetService s1 = Except.ok s2 ∧ s1 = s2 ∧ s2.ctx = none ∧ s2.pg = none ∧
      (getSharedPageM s2).2 = ⟨3, false⟩ ∧
      (getSharedPageM s2).1.ctx = some ⟨2, true, false⟩ ∧
      (∀ c0, (⟨some ⟨0, true, false⟩, some ⟨1, false⟩, 2⟩ : SvcState).ctx =
        some c0 → c0.id ≠ 2) ∧
      (∀ p0, (⟨some ⟨0, true, false⟩, some ⟨1, false⟩, 2⟩ : SvcState).pg =
        some p0 → p0.id ≠ 3) :=
  reset_idempotent_acquire_fresh ⟨some ⟨0, true, false⟩, some ⟨1, false⟩, 2⟩
    ⟨fun c hc => by cases hc; decide, fun p hp => by cases hp; decide⟩
